import Mathlib

/-! The responder of `diaries-go`: envelope model, dispatcher and delivery callback.

A shallow embedding of `cmd/Responder` (`main.go`, `QuitHandler.go`,
`GetPagesHandler.go`, `BuildInfoHandler.go`).

* Go's `(*response.Response, bool, error)` triple is `HandlerOutcome`: a nil
  pointer is `none`, a nil `error` is `none`, and an error is represented by the
  text of its `Error()` method (the only thing the source does with it).
* A handler may have effects of its own; it is a state transformer over an
  arbitrary state type `σ`, threaded through the dispatcher.
* Logging through `slog` is not modelled.
* The JSON codec, the MQTT client and the build metadata are collaborators
  outside the repository; they are fields of `Externals`.
-/

namespace Responder

/-! ## Envelope model -/

/-- A typed argument or result value (string, integer, boolean, structured). -/
inductive Value where
  | str (s : String)
  | int (n : Int)
  | bool (b : Bool)
  | obj (fields : List (String × Value))

/-- The bytes of a message body (Go `[]byte`). -/
abbrev Payload := List UInt8

/-- Modelled from the spec: the type `request.Request` (package `internal/request`
is not among the sources). `Function` is the operation name, `Args` the argument
mapping; `Args = none` is the nil map, an absent args container. -/
structure Request where
  Function : String
  Args : Option (List (String × Value))

/-- Modelled from the spec: the type `response.Response` (package
`internal/response` is not among the sources): a numeric status, an optional
message and a mapping of result fields. -/
structure Response where
  status : Int
  message : Option String
  fields : List (String × Value)

/-- Go `http.StatusOK`. -/
def StatusOK : Int := 200

/-- Go `http.StatusBadRequest`. -/
def StatusBadRequest : Int := 400

namespace Response

/-- Modelled from the spec: `response.New(status)`, a response with the given
status, no message and no result fields. -/
def New (status : Int) : Response :=
  { status := status, message := none, fields := [] }

/-- Modelled from the spec: `(*Response).PutMessage`, which sets the message. -/
def PutMessage (r : Response) (message : String) : Response :=
  { r with message := some message }

/-- Modelled from the spec: `(*Response).PutString`, which adds a string result
field. -/
def PutString (r : Response) (key value : String) : Response :=
  { r with fields := r.fields ++ [(key, Value.str value)] }

/-- Modelled from the spec: `(*Response).PutBuildInfo`, which adds the result
fields of the build metadata; the metadata itself comes from outside. -/
def PutBuildInfo (r : Response) (info : List (String × Value)) : Response :=
  { r with fields := r.fields ++ info }

/-- Modelled from the spec: `response.BadRequest(message)`, the response
`{status = 400, message}`. -/
def BadRequest (message : String) : Response :=
  (New StatusBadRequest).PutMessage message

end Response

/-- The `(*response.Response, bool, error)` triple of a handler or of the
dispatcher. -/
abbrev HandlerOutcome := Option Response × Bool × Option String

/-- The `Handler` interface: `Handle(request.Request)`, as a transformer of the
state `σ` the handlers act on. -/
abbrev Handler (σ : Type) := Request → σ → HandlerOutcome × σ

/-- `paho.PublishProperties`, the fields the responder uses. `CorrelationData`
is a byte slice which may be nil. -/
structure PublishProperties where
  CorrelationData : Option (List UInt8)
  ResponseTopic : String

/-- `paho.Publish`, the fields the responder uses. `Properties` is a pointer
which may be nil. -/
structure Publish where
  Properties : Option PublishProperties
  Topic : String
  Payload : Payload

/-- `paho.PublishReceived`: the inbound packet. (Its `Client` is the `publish`
field of `Externals`.) -/
structure PublishReceived where
  Packet : Publish

/-- The collaborators outside the repository. -/
structure Externals (σ : Type) where
  /-- `json.NewDecoder(bytes.NewReader(payload)).Decode(&req)`: the decoded
  request, or the text of the decoder's error. -/
  decode : Payload → Except String Request
  /-- `json.Marshal(resp)`: the encoded body, or the text of the error. -/
  marshal : Option Response → Except String Payload
  /-- `received.Client.Publish(ctx, pkt)`: `none` when it returns no error. -/
  publish : Publish → Option String
  /-- The text of the error a typed accessor of `request.Request` returns for a
  key, given what the args hold under that key. -/
  fieldErrorText : String → Option Value → String
  /-- The result fields of `buildinfo.NewBuildInfo()`. -/
  buildInfo : List (String × Value)
  /-- `(*CalculatorHandler).Handle`, registered in `main.go` but not among the
  sources. -/
  calculator : Handler σ

/-- Modelled from the spec: `(*Request).GetBoolean(key)` of the package
`internal/request`: the boolean stored under `key`, and an error (never a silent
zero value) when the field is absent or of another type. -/
def Request.GetBoolean {σ : Type} (ext : Externals σ) (req : Request) (key : String) :
    Except String Bool :=
  match (req.Args.getD []).lookup key with
  | some (Value.bool b) => Except.ok b
  | other => Except.error (ext.fieldErrorText key other)

/-! ## Handlers (`QuitHandler.go`, `GetPagesHandler.go`, `BuildInfoHandler.go`) -/

/-- `(*QuitHandler).Handle`. -/
def QuitHandler.Handle {σ : Type} (ext : Externals σ) : Handler σ := fun req s =>
  match req.GetBoolean ext "quit" with
  | Except.error err =>
    let resp := Response.New StatusBadRequest
    let resp := resp.PutMessage ("could not find 'quit' in arguments: " ++ err)
    ((some resp, false, none), s)
  | Except.ok quit =>
    let resp := Response.New StatusOK
    ((some resp, quit, none), s)

/-- `(*GetPagesHandler).Handle`. -/
def GetPagesHandler.Handle {σ : Type} : Handler σ := fun _req s =>
  let resp := Response.New StatusOK
  let resp := resp.PutString "result" "[ 'one', 'two', 'three' ]"
  ((some resp, false, none), s)

/-- `(*BuildInfoHandler).Handle`. -/
def BuildInfoHandler.Handle {σ : Type} (ext : Externals σ) : Handler σ := fun _req s =>
  let info := ext.buildInfo
  let r := Response.New StatusOK
  let r := r.PutBuildInfo info
  ((some r, false, none), s)

/-! ## Registry and dispatcher (`main.go`) -/

/-- The package variable `requestHandlers`. -/
def requestHandlers {σ : Type} (ext : Externals σ) : List (String × Handler σ) :=
  [ ("buildinfo", BuildInfoHandler.Handle ext),
    ("calculator", ext.calculator),
    ("getPages", GetPagesHandler.Handle),
    ("quit", QuitHandler.Handle ext) ]

/-- The function `getResult`, with the handler registry it reads passed
explicitly (`registry.lookup name = none` is Go's nil handler). -/
def getResult {σ : Type} (ext : Externals σ) (registry : List (String × Handler σ))
    (received : PublishReceived) (s : σ) : HandlerOutcome × σ :=
  match ext.decode received.Packet.Payload with
  | Except.error err =>
    ((some (Response.BadRequest ("request could not be decoded: " ++ err)), false, none), s)
  | Except.ok req =>
    match req.Args with
    | none => ((some (Response.BadRequest "missing request"), false, none), s)
    | some _ =>
      if req.Function.utf8ByteSize = 0 then
        ((some (Response.BadRequest "empty function"), false, none), s)
      else
        match registry.lookup req.Function with
        | none =>
          ((some (Response.BadRequest ("unexpected function: " ++ req.Function)), false, none), s)
        | some handler =>
          match handler req s with
          | ((resp, quit, err), s1) =>
            match err with
            | some e =>
              ((some (Response.BadRequest
                  ("handler '" ++ req.Function ++ "' failed: " ++ e)), false, none), s1)
            | none =>
              match resp with
              | none => ((some (Response.BadRequest "response is null"), false, none), s1)
              | some _ => ((resp, quit, err), s1)

/-! ## The delivery callback and the quit signal (`main.go`, function `main`) -/

/-- What the callback does to the outside: a call of `Client.Publish` that
returned no error, one that returned an error, and a call of `wg.Done()`. -/
inductive Event where
  | published (pkt : Publish)
  | publishFailed (pkt : Publish) (err : String)
  | done

/-- The state the callback runs in: the state of the handlers, the counter of
the wait group `wg`, whether the process has panicked, and the calls made so
far, oldest first. -/
structure World (σ : Type) where
  app : σ
  wg : Int
  panicked : Bool
  events : List Event

/-- The state after `wg.Add(1)` in `main`, before any delivery. -/
def World.start {σ : Type} (s : σ) : World σ :=
  { app := s, wg := 1, panicked := false, events := [] }

/-- `wg.Done()`: Go's `sync.WaitGroup` decrements its counter and panics with
"sync: negative WaitGroup counter" when the counter goes below zero. -/
def World.Done {σ : Type} (w : World σ) : World σ :=
  { w with
    wg := w.wg - 1
    panicked := w.panicked || decide (w.wg - 1 < 0)
    events := w.events ++ [Event.done] }

/-- `wg.Wait()` in `main` returns, and the process goes on to quit, once the
counter is zero. -/
def World.quitting {σ : Type} (w : World σ) : Bool :=
  decide (w.wg = 0)

/-- The function registered in `mqttConfig.OnPublishReceived`. Every path that
returns, returns `(true, nil)`, which is left out. -/
def onPublishReceived {σ : Type} (ext : Externals σ) (registry : List (String × Handler σ))
    (received : PublishReceived) (w : World σ) : World σ :=
  match received.Packet.Properties with
  | none => w
  | some properties =>
    match properties.CorrelationData with
    | none => w
    | some correlationData =>
      if properties.ResponseTopic = "" then w
      else
        match getResult ext registry received w.app with
        | ((resp, quit, err), s1) =>
          match err with
          | some _ => { w with app := s1 }
          | none =>
            match ext.marshal resp with
            | Except.error _ => { w with app := s1 }
            | Except.ok body =>
              let pkt : Publish :=
                { Properties :=
                    some { CorrelationData := some correlationData, ResponseTopic := "" }
                  Topic := properties.ResponseTopic
                  Payload := body }
              match ext.publish pkt with
              | some e =>
                { w with app := s1, events := w.events ++ [Event.publishFailed pkt e] }
              | none =>
                let w1 : World σ :=
                  { w with app := s1, events := w.events ++ [Event.published pkt] }
                if quit then w1.Done else w1

/-- The deliveries made to the callback, in order, for as long as the process
has not panicked. -/
def deliver {σ : Type} (ext : Externals σ) (registry : List (String × Handler σ)) :
    List PublishReceived → World σ → World σ
  | [], w => w
  | received :: rest, w =>
    if w.panicked then w
    else deliver ext registry rest (onPublishReceived ext registry received w)

/-- The number of calls of `wg.Done()` among the events. -/
def doneCount : List Event → Nat
  | [] => 0
  | Event.done :: rest => doneCount rest + 1
  | _ :: rest => doneCount rest

/-! ## Concrete collaborators, for evaluating the definitions -/

namespace Sample

/-- The bytes of an ASCII text. -/
def bytes (s : String) : Payload :=
  s.data.map (fun c => c.toNat.toUInt8)

/-- The body `{"function":"quit","args":{"quit":true}}`. -/
def quitTrue : Payload :=
  bytes "\x7b\"function\":\"quit\",\"args\":\x7b\"quit\":true\x7d\x7d"

/-- The body `{"function":"quit","args":{"quit":false}}`. -/
def quitFalse : Payload :=
  bytes "\x7b\"function\":\"quit\",\"args\":\x7b\"quit\":false\x7d\x7d"

/-- The body `{"function":"quit","args":{}}`. -/
def quitEmpty : Payload :=
  bytes "\x7b\"function\":\"quit\",\"args\":\x7b\x7d\x7d"

/-- The body `{"function":"quit","args":{"quit":"yes"}}`. -/
def quitText : Payload :=
  bytes "\x7b\"function\":\"quit\",\"args\":\x7b\"quit\":\"yes\"\x7d\x7d"

/-- The body `{"function":"calculator","args":{}}`. -/
def calculatorEmpty : Payload :=
  bytes "\x7b\"function\":\"calculator\",\"args\":\x7b\x7d\x7d"

/-- The body `{"function":"unknownThing","args":{}}`. -/
def unknownThing : Payload :=
  bytes "\x7b\"function\":\"unknownThing\",\"args\":\x7b\x7d\x7d"

/-- The body `{"function":"quit"}`, which has no args. -/
def quitNoArgs : Payload :=
  bytes "\x7b\"function\":\"quit\"\x7d"

/-- The body `{"args":{}}`, which has no function. -/
def argsOnly : Payload :=
  bytes "\x7b\"args\":\x7b\x7d\x7d"

/-- The body `hello`, which is not JSON. -/
def garbage : Payload :=
  bytes "hello"

/-- What Go's decoder makes of the bodies above; every other body is taken not
to decode. -/
def decode (p : Payload) : Except String Request :=
  if p = quitTrue then Except.ok { Function := "quit", Args := some [("quit", Value.bool true)] }
  else if p = quitFalse then
    Except.ok { Function := "quit", Args := some [("quit", Value.bool false)] }
  else if p = quitEmpty then Except.ok { Function := "quit", Args := some [] }
  else if p = quitText then
    Except.ok { Function := "quit", Args := some [("quit", Value.str "yes")] }
  else if p = calculatorEmpty then Except.ok { Function := "calculator", Args := some [] }
  else if p = unknownThing then Except.ok { Function := "unknownThing", Args := some [] }
  else if p = quitNoArgs then Except.ok { Function := "quit", Args := none }
  else if p = argsOnly then Except.ok { Function := "", Args := some [] }
  else Except.error "invalid character 'h' looking for beginning of value"

/-- An encoder that always succeeds: the status alone, as `{"status":200}` or
`{"status":400}`. -/
def marshal (resp : Option Response) : Except String Payload :=
  match resp with
  | none => Except.ok (bytes "null")
  | some r =>
    if r.status = 200 then Except.ok (bytes "\x7b\"status\":200\x7d")
    else Except.ok (bytes "\x7b\"status\":400\x7d")

/-- A calculator handler that fails, and yet hands back a response and a quit
flag; it counts its calls in the state. -/
def failingCalculator : Handler Nat := fun _req n =>
  ((some (Response.New StatusOK), true, some "unknown operation"), n + 1)

/-- A calculator handler that returns a nil response and no error. -/
def nullCalculator : Handler Nat := fun _req n =>
  ((none, true, none), n + 1)

/-- A calculator handler that succeeds. -/
def okCalculator : Handler Nat := fun _req n =>
  ((some ((Response.New StatusOK).PutString "result" "0"), false, none), n + 1)

/-- Collaborators that work: the decoder and encoder above, a publish that
never fails, and the given calculator handler. -/
def ext (calculator : Handler Nat) : Externals Nat :=
  { decode := decode
    marshal := marshal
    publish := fun _ => none
    fieldErrorText := fun key _ => "missing or mistyped field: " ++ key
    buildInfo := [("version", Value.str "0.0.1")]
    calculator := calculator }

/-- An inbound message with the body `p`, correlation data and the response
topic `response/requester`. -/
def message (p : Payload) : PublishReceived :=
  { Packet :=
    { Properties := some { CorrelationData := some [1, 2, 3], ResponseTopic := "response/requester" }
      Topic := "request"
      Payload := p } }

/-- An inbound message with the body `p` and no properties at all. -/
def bare (p : Payload) : PublishReceived :=
  { Packet := { Properties := none, Topic := "request", Payload := p } }

/-- An inbound message with the body `p` and a response topic, but nil
correlation data. -/
def uncorrelated (p : Payload) : PublishReceived :=
  { Packet :=
    { Properties := some { CorrelationData := none, ResponseTopic := "response/requester" }
      Topic := "request"
      Payload := p } }

/-- An inbound message with the body `p` and correlation data, but an empty
response topic. -/
def unaddressed (p : Payload) : PublishReceived :=
  { Packet :=
    { Properties := some { CorrelationData := some [1, 2, 3], ResponseTopic := "" }
      Topic := "request"
      Payload := p } }

/-- The reply to `message p` when the Response has status 200: the body
`{"status":200}` on the topic `response/requester` with the correlation data of
the message. -/
def reply200 : Publish :=
  { Properties := some { CorrelationData := some [1, 2, 3], ResponseTopic := "" }
    Topic := "response/requester"
    Payload := bytes "\x7b\"status\":200\x7d" }

end Sample

end Responder

/-! ## Basic facts -/

namespace Responder

/-- Go's `len(s) == 0` holds of the empty string only. -/
theorem utf8ByteSize_eq_zero_iff (s : String) : s.utf8ByteSize = 0 ↔ s = "" := by
  constructor
  · intro h
    cases s with
    | mk l =>
      cases l with
      | nil => rfl
      | cons c cs =>
        simp [String.utf8ByteSize, String.utf8ByteSize.go] at h
        have := Char.utf8Size_pos c
        omega
  · rintro rfl
    rfl

/-- The dispatcher on a request that passes validation and has a registered
handler: the three ways the handler's outcome is turned into the result. -/
theorem getResult_handled {σ : Type} (ext : Externals σ) (registry : List (String × Handler σ))
    (received : PublishReceived) (s : σ) (req : Request) (args : List (String × Value))
    (handler : Handler σ)
    (hdec : ext.decode received.Packet.Payload = Except.ok req)
    (hargs : req.Args = some args) (hfn : req.Function ≠ "")
    (hreg : registry.lookup req.Function = some handler) :
    getResult ext registry received s =
      match handler req s with
      | ((resp, quit, err), s1) =>
        match err with
        | some e =>
          ((some (Response.BadRequest
              ("handler '" ++ req.Function ++ "' failed: " ++ e)), false, none), s1)
        | none =>
          match resp with
          | none => ((some (Response.BadRequest "response is null"), false, none), s1)
          | some r => ((some r, quit, none), s1) := by
  have hlen : ¬ req.Function.utf8ByteSize = 0 := fun h => hfn ((utf8ByteSize_eq_zero_iff _).1 h)
  simp only [getResult, hdec, hargs, hlen, hreg, if_false]
  rcases handler req s with ⟨⟨resp, quit, err⟩, s1⟩
  cases err <;> cases resp <;> rfl

/-- The quit handler on args which hold a boolean under `quit`. -/
theorem QuitHandler_bool {σ : Type} (ext : Externals σ) (fn : String)
    (args : List (String × Value)) (b : Bool) (s : σ)
    (h : args.lookup "quit" = some (Value.bool b)) :
    QuitHandler.Handle ext { Function := fn, Args := some args } s =
      ((some (Response.New StatusOK), b, none), s) := by
  simp [QuitHandler.Handle, Request.GetBoolean, h]

/-- The quit handler on args which hold no boolean under `quit`. -/
theorem QuitHandler_no_bool {σ : Type} (ext : Externals σ) (fn : String)
    (args : List (String × Value)) (s : σ)
    (h : ∀ b, args.lookup "quit" ≠ some (Value.bool b)) :
    QuitHandler.Handle ext { Function := fn, Args := some args } s =
      ((some ((Response.New StatusBadRequest).PutMessage
          ("could not find 'quit' in arguments: " ++
            ext.fieldErrorText "quit" (args.lookup "quit"))), false, none), s) := by
  unfold QuitHandler.Handle Request.GetBoolean
  simp only [Option.getD_some]

end Responder

/-! ## C1: registered functions and the 200 status -/

namespace Responder

/-- C1: for every registered function name and every args mapping that is
valid for it, `getResult` applied to a body that decodes to that Request
returns a non-null Response of status 200 and a nil error. The args are valid
for `buildinfo` and `getPages` whenever they are present; for `quit` when they
hold a boolean under `quit` (a missing or mistyped field is a validation
error); for `calculator`, whose handler is not among the sources, when that
handler accepts them: it returns no error and a non-null Response of status
200. -/
theorem getResult_registered_status {σ : Type} (ext : Externals σ) (received : PublishReceived)
    (s : σ) (fn : String) (args : List (String × Value))
    (hreg : fn ∈ (requestHandlers ext).map Prod.fst)
    (hdec : ext.decode received.Packet.Payload = Except.ok { Function := fn, Args := some args })
    (hquit : fn = "quit" → ∃ b, args.lookup "quit" = some (Value.bool b))
    (hcalc : fn = "calculator" → ∃ r0 q0 s0,
      ext.calculator { Function := fn, Args := some args } s = ((some r0, q0, none), s0) ∧
      r0.status = 200) :
    ∃ r q s1, getResult ext (requestHandlers ext) received s = ((some r, q, none), s1) ∧
      r.status = 200 := by
  simp only [requestHandlers, List.map_cons, List.map_nil, List.mem_cons, List.mem_singleton,
    List.not_mem_nil, or_false] at hreg
  rcases hreg with rfl | rfl | rfl | rfl
  · have hres := getResult_handled ext (requestHandlers ext) received s _ args
      (BuildInfoHandler.Handle ext) hdec rfl (by simp) (by simp [requestHandlers, List.lookup])
    exact ⟨_, _, _, hres, rfl⟩
  · have hres := getResult_handled ext (requestHandlers ext) received s _ args
      ext.calculator hdec rfl (by simp) (by simp [requestHandlers, List.lookup])
    obtain ⟨r0, q0, s0, h0, h200⟩ := hcalc rfl
    rw [h0] at hres
    exact ⟨r0, q0, s0, hres, h200⟩
  · have hres := getResult_handled ext (requestHandlers ext) received s _ args
      GetPagesHandler.Handle hdec rfl (by simp) (by simp [requestHandlers, List.lookup])
    exact ⟨_, _, _, hres, rfl⟩
  · have hres := getResult_handled ext (requestHandlers ext) received s _ args
      (QuitHandler.Handle ext) hdec rfl (by simp) (by simp [requestHandlers, List.lookup])
    obtain ⟨b, hb⟩ := hquit rfl
    rw [QuitHandler_bool ext "quit" args b s hb] at hres
    exact ⟨_, _, _, hres, rfl⟩

/-- C1 at the body `{"function":"quit","args":{"quit":true}}` and at the body
`{"function":"calculator","args":{}}` with a calculator handler that accepts
it. -/
theorem getResult_registered_status_witness :
    (∃ r q s1, getResult (Sample.ext Sample.okCalculator)
        (requestHandlers (Sample.ext Sample.okCalculator)) (Sample.message Sample.quitTrue) 0
        = ((some r, q, none), s1) ∧ r.status = 200) ∧
    (∃ r q s1, getResult (Sample.ext Sample.okCalculator)
        (requestHandlers (Sample.ext Sample.okCalculator))
        (Sample.message Sample.calculatorEmpty) 0
        = ((some r, q, none), s1) ∧ r.status = 200) :=
  ⟨getResult_registered_status (Sample.ext Sample.okCalculator) (Sample.message Sample.quitTrue)
      0 "quit" [("quit", Value.bool true)] (by decide) rfl (fun _ => ⟨true, rfl⟩)
      (fun h => absurd h (by decide)),
   getResult_registered_status (Sample.ext Sample.okCalculator)
      (Sample.message Sample.calculatorEmpty) 0 "calculator" [] (by decide) rfl
      (fun h => absurd h (by decide))
      (fun _ => ⟨(Response.New StatusOK).PutString "result" "0", false, 1, rfl, rfl⟩)⟩

end Responder

/-! ## C2: the dispatcher always returns a Response and a nil error -/

namespace Responder

/-- C2: for every payload, every registry of handlers and every behaviour of
those handlers, `getResult` returns a non-null Response together with a nil
error (so the callback's `err != nil` branch after `getResult` is never
taken); and when the handler of a validated request returns a nil Response
with no error, the result is status 400, message "response is null",
shouldQuit = false. -/
theorem getResult_response_and_nil_error {σ : Type} (ext : Externals σ)
    (registry : List (String × Handler σ)) (received : PublishReceived) (s : σ) :
    (∃ r q s1, getResult ext registry received s = ((some r, q, none), s1)) ∧
    (∀ req args handler q s1,
      ext.decode received.Packet.Payload = Except.ok req → req.Args = some args →
      req.Function ≠ "" → registry.lookup req.Function = some handler →
      handler req s = ((none, q, none), s1) →
      getResult ext registry received s
        = ((some { status := 400, message := some "response is null", fields := [] },
            false, none), s1)) := by
  constructor
  · rcases hdec : ext.decode received.Packet.Payload with detail | req
    · simp only [getResult, hdec]
      exact ⟨_, _, _, rfl⟩
    · rcases hargs : req.Args with _ | args
      · simp only [getResult, hdec, hargs]
        exact ⟨_, _, _, rfl⟩
      · by_cases hfn : req.Function = ""
        · have hlen : req.Function.utf8ByteSize = 0 := (utf8ByteSize_eq_zero_iff _).2 hfn
          simp only [getResult, hdec, hargs, hlen, if_true]
          exact ⟨_, _, _, rfl⟩
        · rcases hreg : registry.lookup req.Function with _ | handler
          · have hlen : ¬ req.Function.utf8ByteSize = 0 :=
              fun h => hfn ((utf8ByteSize_eq_zero_iff _).1 h)
            simp only [getResult, hdec, hargs, hlen, hreg, if_false]
            exact ⟨_, _, _, rfl⟩
          · rw [getResult_handled ext registry received s req args handler hdec hargs hfn hreg]
            rcases handler req s with ⟨⟨resp, quit, err⟩, s1⟩
            cases err with
            | some e => exact ⟨_, _, _, rfl⟩
            | none =>
              cases resp with
              | none => exact ⟨_, _, _, rfl⟩
              | some r => exact ⟨_, _, _, rfl⟩
  · intro req args handler q s1 hdec hargs hfn hreg hh
    rw [getResult_handled ext registry received s req args handler hdec hargs hfn hreg, hh]
    rfl

/-- C2 at a calculator handler which returns a nil Response and no error. -/
theorem getResult_response_and_nil_error_witness :
    getResult (Sample.ext Sample.nullCalculator) (requestHandlers (Sample.ext Sample.nullCalculator))
        (Sample.message Sample.calculatorEmpty) 0
      = ((some { status := 400, message := some "response is null", fields := [] },
          false, none), 1) :=
  (getResult_response_and_nil_error (Sample.ext Sample.nullCalculator)
      (requestHandlers (Sample.ext Sample.nullCalculator))
      (Sample.message Sample.calculatorEmpty) 0).2
    { Function := "calculator", Args := some [] } [] Sample.nullCalculator true 1
    rfl rfl (by decide) rfl rfl

end Responder

/-! ## C3: bodies that do not decode -/

namespace Responder

/-- C3: when the body does not decode as a Request, `getResult` returns the
Response of status 400 whose message is "request could not be decoded: "
followed by the decoder's error, a message which is not empty, with
shouldQuit = false and a nil error; and it leaves the state of the handlers as
it was, whatever the registered handlers are: none of them is called. -/
theorem getResult_undecodable {σ : Type} (ext : Externals σ)
    (registry : List (String × Handler σ)) (received : PublishReceived) (s : σ) (detail : String)
    (hdec : ext.decode received.Packet.Payload = Except.error detail) :
    getResult ext registry received s
      = ((some { status := 400, message := some ("request could not be decoded: " ++ detail),
                 fields := [] }, false, none), s) ∧
    "request could not be decoded: " ++ detail ≠ "" := by
  constructor
  · simp only [getResult, hdec]
    rfl
  · intro h
    have hlen := congrArg String.length h
    simp only [String.length_append] at hlen
    have h0 : "request could not be decoded: ".length = 0 := by
      have : ("" : String).length = 0 := rfl
      omega
    exact absurd h0 (by decide)

/-- C3 at the body `hello`, with a calculator handler that would count its calls. -/
theorem getResult_undecodable_witness :
    (Sample.ext Sample.failingCalculator).decode (Sample.message Sample.garbage).Packet.Payload
      = Except.error "invalid character 'h' looking for beginning of value" ∧
    (getResult (Sample.ext Sample.failingCalculator)
        (requestHandlers (Sample.ext Sample.failingCalculator)) (Sample.message Sample.garbage) 0
      = ((some { status := 400,
                 message := some ("request could not be decoded: " ++
                   "invalid character 'h' looking for beginning of value"),
                 fields := [] }, false, none), 0) ∧
    "request could not be decoded: " ++ "invalid character 'h' looking for beginning of value"
      ≠ "") :=
  ⟨rfl, getResult_undecodable (Sample.ext Sample.failingCalculator)
    (requestHandlers (Sample.ext Sample.failingCalculator)) (Sample.message Sample.garbage) 0
    "invalid character 'h' looking for beginning of value" rfl⟩

end Responder

/-! ## C4: validation of a decoded request -/

namespace Responder

/-- C4: for a decoded Request, if args is absent the result is status 400 with
message "missing request", whatever the function name; otherwise, if the
function name is empty, the result is status 400 with message "empty function".
In both cases shouldQuit = false, the error is nil, and the state of the
handlers is as it was, whatever the registered handlers are: none of them is
called. -/
theorem getResult_validation {σ : Type} (ext : Externals σ)
    (registry : List (String × Handler σ)) (received : PublishReceived) (s : σ) (req : Request)
    (hdec : ext.decode received.Packet.Payload = Except.ok req) :
    (req.Args = none →
      getResult ext registry received s
        = ((some { status := 400, message := some "missing request", fields := [] },
            false, none), s)) ∧
    (req.Args ≠ none → req.Function = "" →
      getResult ext registry received s
        = ((some { status := 400, message := some "empty function", fields := [] },
            false, none), s)) := by
  constructor
  · intro hargs
    simp only [getResult, hdec, hargs]
    rfl
  · intro hargs hfn
    rcases hargs1 : req.Args with _ | args
    · exact absurd hargs1 hargs
    · have hlen : req.Function.utf8ByteSize = 0 := (utf8ByteSize_eq_zero_iff _).2 hfn
      simp only [getResult, hdec, hargs1, hlen, if_true]
      rfl

/-- C4 at the body `{"function":"quit"}` (a registered name, but no args) and
at the body `{"args":{}}` (args, but no function name). -/
theorem getResult_validation_witness :
    ((Sample.ext Sample.failingCalculator).decode (Sample.message Sample.quitNoArgs).Packet.Payload
      = Except.ok { Function := "quit", Args := none } ∧
    getResult (Sample.ext Sample.failingCalculator)
        (requestHandlers (Sample.ext Sample.failingCalculator)) (Sample.message Sample.quitNoArgs) 0
      = ((some { status := 400, message := some "missing request", fields := [] },
          false, none), 0)) ∧
    ((Sample.ext Sample.failingCalculator).decode (Sample.message Sample.argsOnly).Packet.Payload
      = Except.ok { Function := "", Args := some [] } ∧
    getResult (Sample.ext Sample.failingCalculator)
        (requestHandlers (Sample.ext Sample.failingCalculator)) (Sample.message Sample.argsOnly) 0
      = ((some { status := 400, message := some "empty function", fields := [] },
          false, none), 0)) :=
  ⟨⟨rfl, (getResult_validation (Sample.ext Sample.failingCalculator)
      (requestHandlers (Sample.ext Sample.failingCalculator)) (Sample.message Sample.quitNoArgs) 0
      { Function := "quit", Args := none } rfl).1 rfl⟩,
   ⟨rfl, (getResult_validation (Sample.ext Sample.failingCalculator)
      (requestHandlers (Sample.ext Sample.failingCalculator)) (Sample.message Sample.argsOnly) 0
      { Function := "", Args := some [] } rfl).2 (by simp) rfl⟩⟩

end Responder

/-! ## C5: function names with no handler -/

namespace Responder

/-- A name has no handler exactly when it is not a key of the registry. -/
theorem lookup_eq_none_of_not_key {σ : Type} (registry : List (String × Handler σ))
    (name : String) (h : name ∉ registry.map Prod.fst) : registry.lookup name = none := by
  rw [List.lookup_eq_none_iff]
  intro p hp
  have hne : name ≠ p.1 := fun heq => h (heq ▸ List.mem_map_of_mem Prod.fst hp)
  simpa using hne

/-- C5: for a decoded Request with args present and a non-empty function name
which is not a key of the handler registry, `getResult` returns status 400 with
message exactly "unexpected function: " followed by the name, shouldQuit =
false and a nil error, and leaves the state of the handlers as it was: no
handler is called. -/
theorem getResult_unexpected_function {σ : Type} (ext : Externals σ)
    (registry : List (String × Handler σ)) (received : PublishReceived) (s : σ) (req : Request)
    (args : List (String × Value))
    (hdec : ext.decode received.Packet.Payload = Except.ok req)
    (hargs : req.Args = some args) (hfn : req.Function ≠ "")
    (hkey : req.Function ∉ registry.map Prod.fst) :
    getResult ext registry received s
      = ((some { status := 400, message := some ("unexpected function: " ++ req.Function),
                 fields := [] }, false, none), s) := by
  have hlen : ¬ req.Function.utf8ByteSize = 0 := fun h => hfn ((utf8ByteSize_eq_zero_iff _).1 h)
  have hreg := lookup_eq_none_of_not_key registry req.Function hkey
  simp only [getResult, hdec, hargs, hlen, hreg, if_false]
  rfl

/-- C5 at the body `{"function":"unknownThing","args":{}}` and the registry of
the program: the message is "unexpected function: unknownThing". -/
theorem getResult_unexpected_function_witness :
    (Sample.ext Sample.failingCalculator).decode
        (Sample.message Sample.unknownThing).Packet.Payload
      = Except.ok { Function := "unknownThing", Args := some [] } ∧
    "unknownThing" ≠ "" ∧
    "unknownThing" ∉ (requestHandlers (Sample.ext Sample.failingCalculator)).map Prod.fst ∧
    getResult (Sample.ext Sample.failingCalculator)
        (requestHandlers (Sample.ext Sample.failingCalculator))
        (Sample.message Sample.unknownThing) 0
      = ((some { status := 400, message := some "unexpected function: unknownThing",
                 fields := [] }, false, none), 0) :=
  ⟨rfl, by decide, by decide,
    getResult_unexpected_function (Sample.ext Sample.failingCalculator)
      (requestHandlers (Sample.ext Sample.failingCalculator))
      (Sample.message Sample.unknownThing) 0 { Function := "unknownThing", Args := some [] } []
      rfl rfl (by decide) (by decide)⟩

end Responder

/-! ## C6: the quit function -/

namespace Responder

/-- C6: on a Request with function "quit", `getResult` returns the Response of
status 200 with shouldQuit = true when the args hold the boolean `true` under
`quit`, and with shouldQuit = false when they hold the boolean `false`; when
they hold no boolean under `quit` (the field is absent or of another type) it
returns status 400 with shouldQuit = false, and the message is the quit
handler's "could not find 'quit' in arguments: " followed by the accessor's
error, which is no "handler 'quit' failed: ..." wrapper. The error is nil in
every case. -/
theorem getResult_quit {σ : Type} (ext : Externals σ) (received : PublishReceived) (s : σ)
    (args : List (String × Value))
    (hdec : ext.decode received.Packet.Payload
      = Except.ok { Function := "quit", Args := some args }) :
    (∀ b, args.lookup "quit" = some (Value.bool b) →
      getResult ext (requestHandlers ext) received s
        = ((some { status := 200, message := none, fields := [] }, b, none), s)) ∧
    ((∀ b, args.lookup "quit" ≠ some (Value.bool b)) →
      getResult ext (requestHandlers ext) received s
        = ((some { status := 400,
                   message := some ("could not find 'quit' in arguments: " ++
                     ext.fieldErrorText "quit" (args.lookup "quit")),
                   fields := [] }, false, none), s) ∧
      ∀ detail, "could not find 'quit' in arguments: " ++
          ext.fieldErrorText "quit" (args.lookup "quit")
        ≠ "handler 'quit' failed: " ++ detail) := by
  have hres := getResult_handled ext (requestHandlers ext) received s _ args
    (QuitHandler.Handle ext) hdec rfl (by simp) (by simp [requestHandlers, List.lookup])
  constructor
  · intro b hb
    rw [QuitHandler_bool ext "quit" args b s hb] at hres
    exact hres
  · intro hb
    rw [QuitHandler_no_bool ext "quit" args s hb] at hres
    refine ⟨hres, fun detail h => ?_⟩
    have hdata := congrArg String.data h
    simp at hdata

/-- C6 at the bodies `{"function":"quit","args":{"quit":true}}`,
`{"function":"quit","args":{"quit":false}}`, `{"function":"quit","args":{}}`
and `{"function":"quit","args":{"quit":"yes"}}`. -/
theorem getResult_quit_witness :
    getResult (Sample.ext Sample.okCalculator) (requestHandlers (Sample.ext Sample.okCalculator))
        (Sample.message Sample.quitTrue) 0
      = ((some { status := 200, message := none, fields := [] }, true, none), 0) ∧
    getResult (Sample.ext Sample.okCalculator) (requestHandlers (Sample.ext Sample.okCalculator))
        (Sample.message Sample.quitFalse) 0
      = ((some { status := 200, message := none, fields := [] }, false, none), 0) ∧
    getResult (Sample.ext Sample.okCalculator) (requestHandlers (Sample.ext Sample.okCalculator))
        (Sample.message Sample.quitEmpty) 0
      = ((some { status := 400,
                 message := some ("could not find 'quit' in arguments: " ++
                   "missing or mistyped field: quit"),
                 fields := [] }, false, none), 0) ∧
    getResult (Sample.ext Sample.okCalculator) (requestHandlers (Sample.ext Sample.okCalculator))
        (Sample.message Sample.quitText) 0
      = ((some { status := 400,
                 message := some ("could not find 'quit' in arguments: " ++
                   "missing or mistyped field: quit"),
                 fields := [] }, false, none), 0) :=
  ⟨(getResult_quit (Sample.ext Sample.okCalculator) (Sample.message Sample.quitTrue) 0
      [("quit", Value.bool true)] rfl).1 true rfl,
   (getResult_quit (Sample.ext Sample.okCalculator) (Sample.message Sample.quitFalse) 0
      [("quit", Value.bool false)] rfl).1 false rfl,
   ((getResult_quit (Sample.ext Sample.okCalculator) (Sample.message Sample.quitEmpty) 0
      [] rfl).2 (by simp)).1,
   ((getResult_quit (Sample.ext Sample.okCalculator) (Sample.message Sample.quitText) 0
      [("quit", Value.str "yes")] rfl).2 (by simp [List.lookup])).1⟩

end Responder

/-! ## C7: the handler's result is passed on -/

namespace Responder

/-- C7: for a decoded Request which passes validation and whose registered
handler returns a non-null Response `r`, a flag `q` and no error, `getResult`
returns exactly `r` (status, message and result fields as they are) and `q`,
with a nil error, in the state the handler left. -/
theorem getResult_passes_on {σ : Type} (ext : Externals σ)
    (registry : List (String × Handler σ)) (received : PublishReceived) (s : σ) (req : Request)
    (args : List (String × Value)) (handler : Handler σ) (r : Response) (q : Bool) (s1 : σ)
    (hdec : ext.decode received.Packet.Payload = Except.ok req)
    (hargs : req.Args = some args) (hfn : req.Function ≠ "")
    (hreg : registry.lookup req.Function = some handler)
    (hh : handler req s = ((some r, q, none), s1)) :
    getResult ext registry received s = ((some r, q, none), s1) := by
  rw [getResult_handled ext registry received s req args handler hdec hargs hfn hreg, hh]

/-- C7 at a calculator handler which returns a Response with a result field. -/
theorem getResult_passes_on_witness :
    getResult (Sample.ext Sample.okCalculator) (requestHandlers (Sample.ext Sample.okCalculator))
        (Sample.message Sample.calculatorEmpty) 0
      = ((some { status := 200, message := none, fields := [("result", Value.str "0")] },
          false, none), 1) :=
  getResult_passes_on (Sample.ext Sample.okCalculator)
    (requestHandlers (Sample.ext Sample.okCalculator)) (Sample.message Sample.calculatorEmpty) 0
    { Function := "calculator", Args := some [] } [] Sample.okCalculator
    { status := 200, message := none, fields := [("result", Value.str "0")] } false 1
    rfl rfl (by decide) rfl rfl

end Responder

/-! ## C8: a handler that returns an error -/

namespace Responder

/-- C8: for a decoded Request which passes validation and whose registered
handler returns an error, `getResult` returns status 400 with the message
"handler '<name>' failed: <detail>", where the name is the requested function
and the detail the handler's error, with shouldQuit = false and a nil error,
whatever Response and flag the handler returned with the error. -/
theorem getResult_handler_error {σ : Type} (ext : Externals σ)
    (registry : List (String × Handler σ)) (received : PublishReceived) (s : σ) (req : Request)
    (args : List (String × Value)) (handler : Handler σ) (resp : Option Response) (q : Bool)
    (detail : String) (s1 : σ)
    (hdec : ext.decode received.Packet.Payload = Except.ok req)
    (hargs : req.Args = some args) (hfn : req.Function ≠ "")
    (hreg : registry.lookup req.Function = some handler)
    (hh : handler req s = ((resp, q, some detail), s1)) :
    getResult ext registry received s
      = ((some { status := 400,
                 message := some ("handler '" ++ req.Function ++ "' failed: " ++ detail),
                 fields := [] }, false, none), s1) := by
  rw [getResult_handled ext registry received s req args handler hdec hargs hfn hreg, hh]
  rfl

/-- C8 at a calculator handler which returns an error together with a Response
of status 200 and the flag `true`. -/
theorem getResult_handler_error_witness :
    Sample.failingCalculator { Function := "calculator", Args := some [] } 0
      = ((some (Response.New StatusOK), true, some "unknown operation"), 1) ∧
    getResult (Sample.ext Sample.failingCalculator)
        (requestHandlers (Sample.ext Sample.failingCalculator))
        (Sample.message Sample.calculatorEmpty) 0
      = ((some { status := 400,
                 message := some "handler 'calculator' failed: unknown operation",
                 fields := [] }, false, none), 1) :=
  ⟨rfl, getResult_handler_error (Sample.ext Sample.failingCalculator)
    (requestHandlers (Sample.ext Sample.failingCalculator))
    (Sample.message Sample.calculatorEmpty) 0
    { Function := "calculator", Args := some [] } [] Sample.failingCalculator
    (some (Response.New StatusOK)) true "unknown operation" 1
    rfl rfl (by decide) rfl rfl⟩

end Responder

/-! ## C9: a second quit request -/

namespace Responder

/-- C9 fails on the code: with the wait group at 1 as `main` leaves it, one
quit = true request is answered and brings the counter to 0, so that `main`
goes on to quit; a second quit = true request delivered after it is answered
too, but its call of `wg.Done()` brings the counter to -1 and the process
panics: the second signal is not a no-op. -/
theorem deliver_second_quit_panics :
    ((deliver (Sample.ext Sample.okCalculator) (requestHandlers (Sample.ext Sample.okCalculator))
        [Sample.message Sample.quitTrue] (World.start 0)).panicked = false ∧
     (deliver (Sample.ext Sample.okCalculator) (requestHandlers (Sample.ext Sample.okCalculator))
        [Sample.message Sample.quitTrue] (World.start 0)).quitting = true) ∧
    ((deliver (Sample.ext Sample.okCalculator) (requestHandlers (Sample.ext Sample.okCalculator))
        [Sample.message Sample.quitTrue, Sample.message Sample.quitTrue]
        (World.start 0)).panicked = true ∧
     (deliver (Sample.ext Sample.okCalculator) (requestHandlers (Sample.ext Sample.okCalculator))
        [Sample.message Sample.quitTrue, Sample.message Sample.quitTrue]
        (World.start 0)).wg = -1 ∧
     doneCount (deliver (Sample.ext Sample.okCalculator)
        (requestHandlers (Sample.ext Sample.okCalculator))
        [Sample.message Sample.quitTrue, Sample.message Sample.quitTrue]
        (World.start 0)).events = 2) := by
  decide

end Responder

/-! ## C10: when the callback raises the quit signal -/

namespace Responder

/-- C10: for every inbound message, the events the callback adds contain a
call of `wg.Done()` if and only if the message was not discarded, `getResult`
returned shouldQuit = true, the reply was encoded and `Publish` returned no
error; when they do, they are exactly the successful publish followed by the
call of `wg.Done()`; and when they do not (in particular when encoding or
publishing failed, also for a quit = true request), the message is dropped: the
wait group and the panic flag are as they were. -/
theorem onPublishReceived_done_iff {σ : Type} (ext : Externals σ)
    (registry : List (String × Handler σ)) (received : PublishReceived) (w : World σ) :
    ∃ new, (onPublishReceived ext registry received w).events = w.events ++ new ∧
      (Event.done ∈ new ↔
        ∃ properties correlationData resp s1 body,
          received.Packet.Properties = some properties ∧
          properties.CorrelationData = some correlationData ∧
          properties.ResponseTopic ≠ "" ∧
          getResult ext registry received w.app = ((resp, true, none), s1) ∧
          ext.marshal resp = Except.ok body ∧
          ext.publish
            { Properties := some { CorrelationData := some correlationData, ResponseTopic := "" }
              Topic := properties.ResponseTopic
              Payload := body } = none) ∧
      (Event.done ∈ new →
        ∃ pkt, ext.publish pkt = none ∧ new = [Event.published pkt, Event.done]) ∧
      (Event.done ∉ new →
        (onPublishReceived ext registry received w).wg = w.wg ∧
        (onPublishReceived ext registry received w).panicked = w.panicked) := by
  rcases hp : received.Packet.Properties with _ | properties
  · refine ⟨[], ?_, ⟨fun h => absurd h (List.not_mem_nil _), ?_⟩,
      fun h => absurd h (List.not_mem_nil _), fun _ => ?_⟩
    · simp only [onPublishReceived, hp, List.append_nil]
    · rintro ⟨p, c, resp, s1, body, h1, -⟩
      cases h1
    · simp only [onPublishReceived, hp, and_self]
  · rcases hc : properties.CorrelationData with _ | correlationData
    · refine ⟨[], ?_, ⟨fun h => absurd h (List.not_mem_nil _), ?_⟩,
        fun h => absurd h (List.not_mem_nil _), fun _ => ?_⟩
      · simp only [onPublishReceived, hp, hc, List.append_nil]
      · rintro ⟨p, c, resp, s1, body, h1, h2, -⟩
        cases h1
        rw [hc] at h2
        cases h2
      · simp only [onPublishReceived, hp, hc, and_self]
    · by_cases ht : properties.ResponseTopic = ""
      · refine ⟨[], ?_, ⟨fun h => absurd h (List.not_mem_nil _), ?_⟩,
          fun h => absurd h (List.not_mem_nil _), fun _ => ?_⟩
        · simp only [onPublishReceived, hp, hc, ht, if_true, List.append_nil]
        · rintro ⟨p, c, resp, s1, body, h1, h2, h3, -⟩
          cases h1
          exact absurd ht h3
        · simp only [onPublishReceived, hp, hc, ht, if_true, and_self]
      · rcases hg : getResult ext registry received w.app with ⟨⟨resp, quit, err⟩, s1⟩
        cases err with
        | some e =>
          refine ⟨[], ?_, ⟨fun h => absurd h (List.not_mem_nil _), ?_⟩,
            fun h => absurd h (List.not_mem_nil _), fun _ => ?_⟩
          · simp only [onPublishReceived, hp, hc, ht, if_false, hg, List.append_nil]
          · rintro ⟨p, c, resp1, s2, body, h1, h2, h3, h4, -⟩
            cases h4
          · simp only [onPublishReceived, hp, hc, ht, if_false, hg, and_self]
        | none =>
          rcases hm : ext.marshal resp with e | body
          · refine ⟨[], ?_, ⟨fun h => absurd h (List.not_mem_nil _), ?_⟩,
              fun h => absurd h (List.not_mem_nil _), fun _ => ?_⟩
            · simp only [onPublishReceived, hp, hc, ht, if_false, hg, hm, List.append_nil]
            · rintro ⟨p, c, resp1, s2, body, h1, h2, h3, h4, h5, -⟩
              cases h4
              rw [hm] at h5
              cases h5
            · simp only [onPublishReceived, hp, hc, ht, if_false, hg, hm, and_self]
          · rcases hpub : ext.publish
              { Properties :=
                  some { CorrelationData := some correlationData, ResponseTopic := "" }
                Topic := properties.ResponseTopic
                Payload := body } with _ | e
            · cases quit with
              | false =>
                refine ⟨[Event.published (Publish.mk (some (PublishProperties.mk (some correlationData) ""))
                    properties.ResponseTopic body)], ?_, ⟨fun h => ?_, ?_⟩, fun h => ?_, fun _ => ?_⟩
                · simp only [onPublishReceived, hp, hc, ht, if_false, hg, hm, hpub]
                  rfl
                · simp at h
                · rintro ⟨p, c, resp1, s2, body1, h1, h2, h3, h4, -⟩
                  cases h4
                · simp at h
                · simp only [onPublishReceived, hp, hc, ht, if_false, hg, hm, hpub]
                  exact ⟨rfl, rfl⟩
              | true =>
                refine ⟨[Event.published (Publish.mk (some (PublishProperties.mk (some correlationData) ""))
                    properties.ResponseTopic body), Event.done], ?_, ⟨fun _ => ?_, fun _ => ?_⟩,
                  fun _ => ⟨_, hpub, rfl⟩, fun h => ?_⟩
                · simp only [onPublishReceived, hp, hc, ht, if_false, hg, hm, hpub]
                  simp [World.Done]
                · exact ⟨properties, correlationData, resp, s1, body, rfl, hc, ht, rfl, hm, hpub⟩
                · simp
                · simp at h
            · refine ⟨[Event.publishFailed (Publish.mk (some (PublishProperties.mk (some correlationData) ""))
                    properties.ResponseTopic body) e], ?_, ⟨fun h => ?_, ?_⟩, fun h => ?_, fun _ => ?_⟩
              · simp only [onPublishReceived, hp, hc, ht, if_false, hg, hm, hpub]
              · simp at h
              · rintro ⟨p, c, resp1, s2, body1, h1, h2, h3, h4, h5, h6⟩
                cases h1
                rw [hc] at h2
                cases h2
                cases h4
                rw [hm] at h5
                cases h5
                rw [hpub] at h6
                cases h6
              · simp at h
              · simp only [onPublishReceived, hp, hc, ht, if_false, hg, hm, hpub, and_self]

end Responder

/-! ## C11: where the reply goes -/

namespace Responder

/-- C11: a message with no properties, with nil correlation data or with an
empty response topic is discarded: the callback leaves everything as it was
(the state of the handlers, so nothing was dispatched, whatever the handlers
are; the calls of `Publish`; the wait group). And among the events this call
of the callback adds, every call of `Publish`, whether it returned an error or
not, carries the response topic of the inbound message as its Topic, the
correlation data of the inbound message as its CorrelationData, and as its
payload the encoding of the Response that `getResult` returned for that
message. -/
theorem onPublishReceived_reply_destination {σ : Type} (ext : Externals σ)
    (registry : List (String × Handler σ)) (received : PublishReceived) (w : World σ) :
    ((received.Packet.Properties = none ∨
        ∃ properties, received.Packet.Properties = some properties ∧
          (properties.CorrelationData = none ∨ properties.ResponseTopic = "")) →
      onPublishReceived ext registry received w = w) ∧
    ∃ new, (onPublishReceived ext registry received w).events = w.events ++ new ∧
      ∀ pkt, (Event.published pkt ∈ new ∨ ∃ e, Event.publishFailed pkt e ∈ new) →
        ∃ properties correlationData resp quit s1,
          received.Packet.Properties = some properties ∧
          properties.CorrelationData = some correlationData ∧
          properties.ResponseTopic ≠ "" ∧
          getResult ext registry received w.app = ((resp, quit, none), s1) ∧
          ext.marshal resp = Except.ok pkt.Payload ∧
          pkt.Topic = properties.ResponseTopic ∧
          pkt.Properties.bind PublishProperties.CorrelationData
            = properties.CorrelationData := by
  rcases hp : received.Packet.Properties with _ | properties
  · refine ⟨fun _ => ?_, [], ?_, fun pkt h => ?_⟩
    · simp only [onPublishReceived, hp]
    · simp only [onPublishReceived, hp, List.append_nil]
    · simp at h
  · rcases hc : properties.CorrelationData with _ | correlationData
    · refine ⟨fun _ => ?_, [], ?_, fun pkt h => ?_⟩
      · simp only [onPublishReceived, hp, hc]
      · simp only [onPublishReceived, hp, hc, List.append_nil]
      · simp at h
    · by_cases ht : properties.ResponseTopic = ""
      · refine ⟨fun _ => ?_, [], ?_, fun pkt h => ?_⟩
        · simp only [onPublishReceived, hp, hc, ht, if_true]
        · simp only [onPublishReceived, hp, hc, ht, if_true, List.append_nil]
        · simp at h
      · constructor
        · rintro (h | ⟨p, h1, h2 | h2⟩)
          · cases h
          · cases h1
            rw [hc] at h2
            cases h2
          · cases h1
            exact absurd h2 ht
        · rcases hg : getResult ext registry received w.app with ⟨⟨resp, quit, err⟩, s1⟩
          cases err with
          | some e =>
            refine ⟨[], ?_, fun pkt h => ?_⟩
            · simp only [onPublishReceived, hp, hc, ht, if_false, hg, List.append_nil]
            · simp at h
          | none =>
            rcases hm : ext.marshal resp with e | body
            · refine ⟨[], ?_, fun pkt h => ?_⟩
              · simp only [onPublishReceived, hp, hc, ht, if_false, hg, hm, List.append_nil]
              · simp at h
            · have hdest : ∀ pkt : Publish,
                  pkt = Publish.mk (some (PublishProperties.mk (some correlationData) ""))
                    properties.ResponseTopic body →
                  ∃ properties1 correlationData1 resp1 quit1 s2,
                    some properties = some properties1 ∧
                    properties1.CorrelationData = some correlationData1 ∧
                    properties1.ResponseTopic ≠ "" ∧
                    ((resp, quit, (none : Option String)), s1) = ((resp1, quit1, none), s2) ∧
                    ext.marshal resp1 = Except.ok pkt.Payload ∧
                    pkt.Topic = properties1.ResponseTopic ∧
                    pkt.Properties.bind PublishProperties.CorrelationData
                      = properties1.CorrelationData := by
                rintro pkt rfl
                exact ⟨properties, correlationData, resp, quit, s1, rfl, hc, ht, rfl, hm, rfl,
                  hc.symm ▸ rfl⟩
              rcases hpub : ext.publish
                (Publish.mk (some (PublishProperties.mk (some correlationData) ""))
                  properties.ResponseTopic body) with _ | e
              · cases quit with
                | false =>
                  refine ⟨[Event.published
                    (Publish.mk (some (PublishProperties.mk (some correlationData) ""))
                      properties.ResponseTopic body)], ?_, fun pkt h => ?_⟩
                  · simp only [onPublishReceived, hp, hc, ht, if_false, hg, hm, hpub]
                    rfl
                  · simp at h
                    exact hdest pkt h
                | true =>
                  refine ⟨[Event.published
                    (Publish.mk (some (PublishProperties.mk (some correlationData) ""))
                      properties.ResponseTopic body), Event.done], ?_, fun pkt h => ?_⟩
                  · simp only [onPublishReceived, hp, hc, ht, if_false, hg, hm, hpub]
                    simp [World.Done]
                  · simp at h
                    exact hdest pkt h
              · refine ⟨[Event.publishFailed
                  (Publish.mk (some (PublishProperties.mk (some correlationData) ""))
                    properties.ResponseTopic body) e], ?_, fun pkt h => ?_⟩
                · simp only [onPublishReceived, hp, hc, ht, if_false, hg, hm, hpub]
                · simp at h
                  exact hdest pkt h

/-- C11 at a quit = true request: without properties, without correlation data
or without a response topic it is discarded and nothing changes; with them, the
call of `Publish` it makes carries the response topic and the correlation data
of the message and the encoding of the Response of `getResult`. -/
theorem onPublishReceived_reply_destination_witness :
    onPublishReceived (Sample.ext Sample.okCalculator)
        (requestHandlers (Sample.ext Sample.okCalculator)) (Sample.bare Sample.quitTrue)
        (World.start 0) = World.start 0 ∧
    onPublishReceived (Sample.ext Sample.okCalculator)
        (requestHandlers (Sample.ext Sample.okCalculator)) (Sample.uncorrelated Sample.quitTrue)
        (World.start 0) = World.start 0 ∧
    onPublishReceived (Sample.ext Sample.okCalculator)
        (requestHandlers (Sample.ext Sample.okCalculator)) (Sample.unaddressed Sample.quitTrue)
        (World.start 0) = World.start 0 ∧
    ∃ properties correlationData resp quit s1,
      (Sample.message Sample.quitTrue).Packet.Properties = some properties ∧
      properties.CorrelationData = some correlationData ∧
      properties.ResponseTopic ≠ "" ∧
      getResult (Sample.ext Sample.okCalculator)
        (requestHandlers (Sample.ext Sample.okCalculator)) (Sample.message Sample.quitTrue)
        (World.start 0).app = ((resp, quit, none), s1) ∧
      (Sample.ext Sample.okCalculator).marshal resp = Except.ok Sample.reply200.Payload ∧
      Sample.reply200.Topic = properties.ResponseTopic ∧
      Sample.reply200.Properties.bind PublishProperties.CorrelationData
        = properties.CorrelationData := by
  refine ⟨(onPublishReceived_reply_destination (Sample.ext Sample.okCalculator)
      (requestHandlers (Sample.ext Sample.okCalculator)) (Sample.bare Sample.quitTrue)
      (World.start 0)).1 (Or.inl rfl),
    (onPublishReceived_reply_destination (Sample.ext Sample.okCalculator)
      (requestHandlers (Sample.ext Sample.okCalculator)) (Sample.uncorrelated Sample.quitTrue)
      (World.start 0)).1 (Or.inr ⟨_, rfl, Or.inl rfl⟩),
    (onPublishReceived_reply_destination (Sample.ext Sample.okCalculator)
      (requestHandlers (Sample.ext Sample.okCalculator)) (Sample.unaddressed Sample.quitTrue)
      (World.start 0)).1 (Or.inr ⟨_, rfl, Or.inr rfl⟩), ?_⟩
  obtain ⟨new, hnew, hall⟩ := (onPublishReceived_reply_destination
    (Sample.ext Sample.okCalculator) (requestHandlers (Sample.ext Sample.okCalculator))
    (Sample.message Sample.quitTrue) (World.start 0)).2
  have hlist : [Event.published Sample.reply200, Event.done] = new := hnew
  exact hall Sample.reply200 (Or.inl (hlist ▸ List.Mem.head _))

end Responder
